import Mathlib

/-!
Shallow embedding of the Instagram Recipe Extractor backend (src/app.py):
the `/extract` request handler (`extract_caption`) and the `/health` handler.

JSON values are modelled by the inductive type `Json` (numbers as integers,
which covers every literal the handlers produce or inspect).  Python-level
behaviours that the handler relies on — truthiness, the `in` membership
operator, attribute errors raised by `.get` on non-dict values — are modelled
explicitly.  An exception raised outside the handler's try-block propagates to
the framework, which answers with its own generic 500 page; that outcome is
modelled as `HandlerResult.frameworkError`, distinct from every `jsonify`
response the handler builds itself.
-/

namespace RecipeExtractor

/-- A JSON value, as parsed from a request body or a provider response. -/
inductive Json where
  | null
  | bool (b : Bool)
  | num (n : Int)
  | str (s : String)
  | arr (elems : List Json)
  | obj (fields : List (String × Json))

/-- Dictionary lookup: the first binding of `key`, mirroring Python dict
access (keys are unique in a parsed JSON object, so first = only). -/
def getField : List (String × Json) → String → Option Json
  | [], _ => none
  | (k, v) :: rest, key => if k = key then some v else getField rest key

/-- Python truthiness of a JSON value (`bool(x)`). -/
def truthy : Json → Bool
  | .null => false
  | .bool b => b
  | .num n => if n = 0 then false else true
  | .str s => if s = "" then false else true
  | .arr xs => !xs.isEmpty
  | .obj fs => !fs.isEmpty

/-- Substring test on strings (Python `pat in s`). -/
def strContains (s pat : String) : Bool :=
  decide (List.IsInfix pat.data s.data)

/-- Python list membership `key in xs` for a string key: compares `key` with
each element under Python `==`; a string compares equal only to an equal
string, so non-string elements never match. -/
def listHasStr : List Json → String → Bool
  | [], _ => false
  | .str s :: rest, key => (if s = key then true else false) || listHasStr rest key
  | _ :: rest, key => listHasStr rest key

/-- Python membership `key in j` for a string key: key lookup on a dict,
element equality on a list, substring on a string; on any other value the
operator raises `TypeError`, modelled as `none`. -/
def pyContains : Json → String → Option Bool
  | .obj fs, key => some (getField fs key).isSome
  | .arr xs, key => some (listHasStr xs key)
  | .str s, key => some (strContains s key)
  | _, _ => none

/-- Python type name of a JSON value, as it appears in exception text. -/
def pyTypeName : Json → String
  | .null => "NoneType"
  | .bool _ => "bool"
  | .num _ => "int"
  | .str _ => "str"
  | .arr _ => "list"
  | .obj _ => "dict"

/-- Text of the `AttributeError` raised by `x.get(...)` when `x` is not a
dict, as CPython renders it. -/
def attrErrorMsg (j : Json) (attr : String) : String :=
  "'" ++ pyTypeName j ++ "' object has no attribute '" ++ attr ++ "'"

/-- Server configuration, read once at startup: the provider token
(`APIFY_TOKEN`, empty string when the variable is unset). -/
structure Config where
  token : String

/-- An HTTP response produced by `jsonify(...), status`. -/
structure HttpResponse where
  status : Nat
  body : Json

/-- Outcome of one request to the handler: either a response the handler
built itself, or an exception that escaped the handler (raised outside its
try-block) and was answered by the framework's generic 500 page. -/
inductive HandlerResult where
  | resp (r : HttpResponse)
  | frameworkError

/-- Outcome of the single outbound provider call (`requests.post`):
a timeout, another transport error carrying its text, or a response with an
HTTP status whose body either parsed as JSON (`Except.ok`) or did not
(`Except.error`, carrying the parse-failure text). -/
inductive CallOutcome where
  | timeout
  | netError (msg : String)
  | response (status : Nat) (parsed : Except String Json)

/-- The failure body `jsonify({'success': False, 'error': msg})`. -/
def errorBody (msg : Json) : Json :=
  .obj [("success", .bool false), ("error", msg)]

/-- The success body `jsonify({'success': True, 'data': d})`. -/
def successBody (d : Json) : Json :=
  .obj [("success", .bool true), ("data", d)]

/-- The cleaned `data` object built from the first provider result
(src/app.py lines 158-169): every absent field replaced by its default, the
`url` field defaulting to the request's Instagram URL. -/
def normalize (post : List (String × Json)) (instagramUrl : String) : Json :=
  .obj [
    ("caption", (getField post "caption").getD (.str "")),
    ("url", (getField post "url").getD (.str instagramUrl)),
    ("username", (getField post "ownerUsername").getD (.str "Unknown")),
    ("timestamp", (getField post "timestamp").getD (.str "")),
    ("likes", (getField post "likesCount").getD (.num 0)),
    ("comments", (getField post "commentsCount").getD (.num 0)),
    ("views", (getField post "videoViewCount").getD (.num 0)),
    ("hashtags", (getField post "hashtags").getD (.arr [])),
    ("mentions", (getField post "mentions").getD (.arr [])),
    ("location", (getField post "locationName").getD .null)]

/-- Interpretation of the provider-call outcome (src/app.py lines 108-193,
the body of the try-block).  The response body is parsed regardless of the
provider's status code.  An `AttributeError` from `.get` on a non-dict value
is caught by the final `except Exception` and becomes the generic 500. -/
def handleOutcome (instagramUrl : String) (outcome : CallOutcome) : HttpResponse :=
  match outcome with
  | .timeout =>
    ⟨504, errorBody (.str "Request timed out. Please try again.")⟩
  | .netError msg =>
    ⟨503, errorBody (.str ("Network error: " ++ msg))⟩
  | .response status parsed =>
    match parsed with
    | .error e =>
      ⟨500, errorBody (.str ("Invalid response from Apify: " ++ e))⟩
    | .ok results =>
      match results with
      | .obj fs =>
        match getField fs "error" with
        | some errVal =>
          match errVal with
          | .obj efs =>
            ⟨status, errorBody ((getField efs "message").getD
              (.str "Unknown error from Apify"))⟩
          | other =>
            ⟨500, errorBody (.str ("Unexpected error: " ++ attrErrorMsg other "get"))⟩
        | none =>
          ⟨500, errorBody (.str "Unexpected response format from Apify")⟩
      | .arr elems =>
        match elems with
        | [] =>
          ⟨404, errorBody
            (.str "No data found. The post might be private, deleted, or the URL is invalid.")⟩
        | first :: _ =>
          match first with
          | .obj post => ⟨200, successBody (normalize post instagramUrl)⟩
          | other =>
            ⟨500, errorBody (.str ("Unexpected error: " ++ attrErrorMsg other "get"))⟩
      | _ =>
        ⟨500, errorBody (.str "Unexpected response format from Apify")⟩

/-- The validation section of the handler (src/app.py lines 52-84), which
runs before the try-block: token check, `not data or 'url' not in data`,
`data['url']`, `not instagram_url or not isinstance(instagram_url, str)`,
`'instagram.com' not in instagram_url`.  Returns the validated URL, or the
early result.  A `TypeError` from membership or subscripting on a truthy
non-dict body, and a `KeyError` from a dict whose membership test succeeded
without the key (impossible), escape to the framework. -/
def validate (cfg : Config) (body : Json) : Except HandlerResult String :=
  if cfg.token = "" then
    .error (.resp ⟨500, errorBody (.str "Server configuration error: APIFY_TOKEN not set")⟩)
  else if truthy body = false then
    .error (.resp ⟨400, errorBody (.str "Missing \"url\" parameter in request body")⟩)
  else
    match pyContains body "url" with
    | none => .error .frameworkError
    | some false =>
      .error (.resp ⟨400, errorBody (.str "Missing \"url\" parameter in request body")⟩)
    | some true =>
      match body with
      | .obj fs =>
        match getField fs "url" with
        | some (.str u) =>
          if u = "" then
            .error (.resp ⟨400, errorBody (.str "Invalid URL format")⟩)
          else if strContains u "instagram.com" = false then
            .error (.resp ⟨400, errorBody (.str "URL must be from instagram.com")⟩)
          else
            .ok u
        | some _ =>
          .error (.resp ⟨400, errorBody (.str "Invalid URL format")⟩)
        | none => .error .frameworkError
      | _ => .error .frameworkError

/-- The `/extract` handler `extract_caption`, as a function of the
configuration, the parsed request body, and the outcome the single outbound
provider call would have.  The first component counts how many outbound
calls were issued. -/
def extract (cfg : Config) (body : Json) (outcome : CallOutcome) :
    Nat × HandlerResult :=
  match validate cfg body with
  | .error r => (0, r)
  | .ok u => (1, .resp (handleOutcome u outcome))

/-- The `/health` handler (src/app.py lines 38-45).  The first component
counts outbound provider calls (none are made). -/
def health (cfg : Config) : Nat × HttpResponse :=
  (0, ⟨200, .obj [
    ("status", .str "ok"),
    ("message", .str "Instagram Recipe Extractor is running"),
    ("token_configured", .bool (if cfg.token = "" then false else true))]⟩)

/-- The `url` field of the `data` object of a success response, when present;
used to tell two handler results apart. -/
def dataUrlField : HandlerResult → Option Json
  | .resp r =>
    match r.body with
    | .obj fields =>
      match getField fields "data" with
      | some (.obj d) => getField d "url"
      | _ => none
    | _ => none
  | .frameworkError => none

/-- String content of the `url` field of a success response (empty when the
field is absent or not a string). -/
def dataUrlStr (h : HandlerResult) : String :=
  match dataUrlField h with
  | some (.str s) => s
  | _ => ""

/-- A valid request body, as the handler sees it. -/
theorem validate_ok (token u : String) (htok : token ≠ "") (hu : u ≠ "")
    (hin : strContains u "instagram.com" = true) :
    validate ⟨token⟩ (.obj [("url", .str u)]) = .ok u := by
  simp [validate, truthy, pyContains, getField, htok, hu, hin]

/-- When validation succeeds, the handler issues the one outbound call and
answers with the interpretation of its outcome. -/
theorem extract_of_ok (cfg : Config) (body : Json) (outcome : CallOutcome)
    (u : String) (hv : validate cfg body = .ok u) :
    extract cfg body outcome = (1, .resp (handleOutcome u outcome)) := by
  simp [extract, hv]

/-- When validation fails, no outbound call is issued and the early result is
returned. -/
theorem extract_of_error (cfg : Config) (body : Json) (outcome : CallOutcome)
    (r : HandlerResult) (hv : validate cfg body = .error r) :
    extract cfg body outcome = (0, r) := by
  simp [extract, hv]

/-- Composite of the two: a well-formed request reaches the outcome
interpretation. -/
theorem extract_ok (token u : String) (outcome : CallOutcome)
    (htok : token ≠ "") (hu : u ≠ "")
    (hin : strContains u "instagram.com" = true) :
    extract ⟨token⟩ (.obj [("url", .str u)]) outcome
      = (1, .resp (handleOutcome u outcome)) :=
  extract_of_ok _ _ _ u (validate_ok token u htok hu hin)

/-- A string appended on the right is contained in the result. -/
theorem strContains_append_right (a b : String) :
    strContains (a ++ b) b = true := by
  have h : (a ++ b).data = a.data ++ b.data := by
    cases a; cases b; rfl
  simp [strContains, h]
  exact (List.suffix_append a.data b.data).isInfix

/-- Classification of the validation phase: it either accepts and hands
back the URL, or raises out to the framework (truthy non-object body), or
answers 400/500 with a fixed string message. -/
theorem validate_cases (cfg : Config) (body : Json) :
    (∃ u, validate cfg body = .ok u)
    ∨ (validate cfg body = .error .frameworkError ∧ truthy body = true
        ∧ ∀ fs, body ≠ .obj fs)
    ∨ (∃ status s, validate cfg body = .error (.resp ⟨status, errorBody (.str s)⟩)
        ∧ (status = 400 ∨ status = 500)) := by
  by_cases htok : cfg.token = ""
  · exact Or.inr (Or.inr ⟨500, "Server configuration error: APIFY_TOKEN not set",
      by simp [validate, htok], Or.inr rfl⟩)
  · by_cases htr : truthy body = true
    · rcases body with _ | b | n | s | xs | fs
      · simp [truthy] at htr
      · exact Or.inr (Or.inl ⟨by simp [validate, htok, htr, pyContains], htr,
          fun fs h => nomatch h⟩)
      · exact Or.inr (Or.inl ⟨by simp [validate, htok, htr, pyContains], htr,
          fun fs h => nomatch h⟩)
      · by_cases hc : strContains s "url" = true
        · exact Or.inr (Or.inl ⟨by simp [validate, htok, htr, pyContains, hc], htr,
            fun fs h => nomatch h⟩)
        · refine Or.inr (Or.inr ⟨400, "Missing \"url\" parameter in request body",
            ?_, Or.inl rfl⟩)
          simp [validate, htok, htr, pyContains, Bool.not_eq_true .. ▸ hc]
      · by_cases hc : listHasStr xs "url" = true
        · exact Or.inr (Or.inl ⟨by simp [validate, htok, htr, pyContains, hc], htr,
            fun fs h => nomatch h⟩)
        · refine Or.inr (Or.inr ⟨400, "Missing \"url\" parameter in request body",
            ?_, Or.inl rfl⟩)
          simp [validate, htok, htr, pyContains, Bool.not_eq_true .. ▸ hc]
      · cases hg : getField fs "url" with
        | none =>
          refine Or.inr (Or.inr ⟨400, "Missing \"url\" parameter in request body",
            ?_, Or.inl rfl⟩)
          simp [validate, htok, htr, pyContains, hg]
        | some v =>
          match v with
          | .str u =>
            by_cases hu : u = ""
            · refine Or.inr (Or.inr ⟨400, "Invalid URL format", ?_, Or.inl rfl⟩)
              simp [validate, htok, htr, pyContains, hg, hu]
            · by_cases hin : strContains u "instagram.com" = true
              · exact Or.inl ⟨u, by simp [validate, htok, htr, pyContains, hg, hu, hin]⟩
              · refine Or.inr (Or.inr ⟨400, "URL must be from instagram.com",
                  ?_, Or.inl rfl⟩)
                simp [validate, htok, htr, pyContains, hg, hu,
                  Bool.not_eq_true .. ▸ hin]
          | .null | .bool _ | .num _ | .arr _ | .obj _ =>
            refine Or.inr (Or.inr ⟨400, "Invalid URL format", ?_, Or.inl rfl⟩)
            simp [validate, htok, htr, pyContains, hg]
    · refine Or.inr (Or.inr ⟨400, "Missing \"url\" parameter in request body",
        ?_, Or.inl rfl⟩)
      simp [validate, htok, Bool.not_eq_true .. ▸ htr]

/-- Classification of the outcome interpretation: either a success response
built from the first array element, or a failure body with a fixed status
(or the provider status forwarded) whose message is a string except on the
forwarded provider-message path. -/
theorem handleOutcome_cases (u : String) (outcome : CallOutcome) :
    (∃ post rest status,
        outcome = CallOutcome.response status (.ok (.arr (Json.obj post :: rest)))
        ∧ handleOutcome u outcome = ⟨200, successBody (normalize post u)⟩)
    ∨ (∃ msg, (handleOutcome u outcome).body = errorBody msg
        ∧ ((handleOutcome u outcome).status ∈ ([400, 404, 500, 503, 504] : List Nat)
            ∨ ∃ parsed, outcome = CallOutcome.response (handleOutcome u outcome).status parsed)
        ∧ ((∃ s, msg = Json.str s)
            ∨ ∃ status fs efs,
                outcome = CallOutcome.response status (.ok (.obj fs))
                ∧ getField fs "error" = some (Json.obj efs)
                ∧ msg = (getField efs "message").getD (Json.str "Unknown error from Apify"))) := by
  rcases outcome with _ | msg | ⟨status, parsed⟩
  · exact Or.inr ⟨_, rfl, Or.inl (by simp [handleOutcome]), Or.inl ⟨_, rfl⟩⟩
  · exact Or.inr ⟨_, rfl, Or.inl (by simp [handleOutcome]), Or.inl ⟨_, rfl⟩⟩
  · rcases parsed with e | results
    · exact Or.inr ⟨_, rfl, Or.inl (by simp [handleOutcome]), Or.inl ⟨_, rfl⟩⟩
    · rcases results with _ | b | n | s | elems | fs
      · exact Or.inr ⟨_, rfl, Or.inl (by simp [handleOutcome]), Or.inl ⟨_, rfl⟩⟩
      · exact Or.inr ⟨_, rfl, Or.inl (by simp [handleOutcome]), Or.inl ⟨_, rfl⟩⟩
      · exact Or.inr ⟨_, rfl, Or.inl (by simp [handleOutcome]), Or.inl ⟨_, rfl⟩⟩
      · exact Or.inr ⟨_, rfl, Or.inl (by simp [handleOutcome]), Or.inl ⟨_, rfl⟩⟩
      · rcases elems with _ | ⟨first, rest⟩
        · exact Or.inr ⟨_, rfl, Or.inl (by simp [handleOutcome]), Or.inl ⟨_, rfl⟩⟩
        · rcases first with _ | b | n | s | xs | post
          · exact Or.inr ⟨_, rfl, Or.inl (by simp [handleOutcome]), Or.inl ⟨_, rfl⟩⟩
          · exact Or.inr ⟨_, rfl, Or.inl (by simp [handleOutcome]), Or.inl ⟨_, rfl⟩⟩
          · exact Or.inr ⟨_, rfl, Or.inl (by simp [handleOutcome]), Or.inl ⟨_, rfl⟩⟩
          · exact Or.inr ⟨_, rfl, Or.inl (by simp [handleOutcome]), Or.inl ⟨_, rfl⟩⟩
          · exact Or.inr ⟨_, rfl, Or.inl (by simp [handleOutcome]), Or.inl ⟨_, rfl⟩⟩
          · exact Or.inl ⟨post, rest, status, rfl, rfl⟩
      · cases hg : getField fs "error" with
        | none =>
          refine Or.inr ⟨.str "Unexpected response format from Apify", ?_,
            Or.inl ?_, Or.inl ⟨_, rfl⟩⟩
          · simp [handleOutcome, hg]
          · simp [handleOutcome, hg]
        | some ev =>
          match ev with
          | .obj efs =>
            refine Or.inr ⟨(getField efs "message").getD
                (Json.str "Unknown error from Apify"), ?_,
              Or.inr ⟨.ok (.obj fs), ?_⟩,
              Or.inr ⟨status, fs, efs, rfl, hg, rfl⟩⟩
            · simp [handleOutcome, hg]
            · simp [handleOutcome, hg]
          | .null =>
            refine Or.inr ⟨.str ("Unexpected error: " ++ attrErrorMsg Json.null "get"), ?_,
              Or.inl ?_, Or.inl ⟨_, rfl⟩⟩
            · simp [handleOutcome, hg]
            · simp [handleOutcome, hg]
          | .bool b =>
            refine Or.inr ⟨.str ("Unexpected error: " ++ attrErrorMsg (Json.bool b) "get"), ?_,
              Or.inl ?_, Or.inl ⟨_, rfl⟩⟩
            · simp [handleOutcome, hg]
            · simp [handleOutcome, hg]
          | .num n =>
            refine Or.inr ⟨.str ("Unexpected error: " ++ attrErrorMsg (Json.num n) "get"), ?_,
              Or.inl ?_, Or.inl ⟨_, rfl⟩⟩
            · simp [handleOutcome, hg]
            · simp [handleOutcome, hg]
          | .str s =>
            refine Or.inr ⟨.str ("Unexpected error: " ++ attrErrorMsg (Json.str s) "get"), ?_,
              Or.inl ?_, Or.inl ⟨_, rfl⟩⟩
            · simp [handleOutcome, hg]
            · simp [handleOutcome, hg]
          | .arr xs =>
            refine Or.inr ⟨.str ("Unexpected error: " ++ attrErrorMsg (Json.arr xs) "get"), ?_,
              Or.inl ?_, Or.inl ⟨_, rfl⟩⟩
            · simp [handleOutcome, hg]
            · simp [handleOutcome, hg]

/-- Claim C1 fails as stated: the provider body `["foo"]` is a non-empty JSON
array (and not an object with an `error` field), yet extract does not return
200 — field lookup on the non-object first element raises, and the generic
handler answers 500. -/
theorem C1_counterexample :
    (extract ⟨"t"⟩ (.obj [("url", .str "https://instagram.com/reel/x")])
        (.response 200 (.ok (.arr [.str "foo"])))).2
      = .resp ⟨500, errorBody
          (.str ("Unexpected error: " ++ attrErrorMsg (.str "foo") "get"))⟩ := by
  rfl

/-- Claim C1 (amended): for every provider response whose parsed body is a
non-empty JSON array whose FIRST ELEMENT IS AN OBJECT (and not an object with
an `error` field), extract takes that first element and returns HTTP 200 with
success true, every absent field defaulted: caption to "", username to
"Unknown", timestamp to "", likes/comments/views to 0, hashtags/mentions to
[], location to null (and url to the request URL). -/
theorem C1_amended (token u : String) (status : Nat) (post : List (String × Json))
    (rest : List Json) (htok : token ≠ "") (hu : u ≠ "")
    (hin : strContains u "instagram.com" = true) :
    (extract ⟨token⟩ (.obj [("url", .str u)])
        (.response status (.ok (.arr (.obj post :: rest))))).2
      = .resp ⟨200, .obj [("success", .bool true), ("data", .obj [
          ("caption", (getField post "caption").getD (.str "")),
          ("url", (getField post "url").getD (.str u)),
          ("username", (getField post "ownerUsername").getD (.str "Unknown")),
          ("timestamp", (getField post "timestamp").getD (.str "")),
          ("likes", (getField post "likesCount").getD (.num 0)),
          ("comments", (getField post "commentsCount").getD (.num 0)),
          ("views", (getField post "videoViewCount").getD (.num 0)),
          ("hashtags", (getField post "hashtags").getD (.arr [])),
          ("mentions", (getField post "mentions").getD (.arr [])),
          ("location", (getField post "locationName").getD .null)])]⟩ := by
  rw [extract_ok token u _ htok hu hin]
  rfl

/-- Witness for C1_amended at the spec's example: body
`[("caption","Yum"),("ownerUsername","chef")]` yields caption "Yum",
username "chef", likes 0, hashtags [], location null. -/
theorem C1_amended_witness :
    ("t" : String) ≠ ""
    ∧ ("https://www.instagram.com/reel/abc/" : String) ≠ ""
    ∧ strContains "https://www.instagram.com/reel/abc/" "instagram.com" = true
    ∧ (extract ⟨"t"⟩ (.obj [("url", .str "https://www.instagram.com/reel/abc/")])
        (.response 200 (.ok (.arr
          [.obj [("caption", .str "Yum"), ("ownerUsername", .str "chef")]])))).2
      = .resp ⟨200, .obj [("success", .bool true), ("data", .obj [
          ("caption", .str "Yum"),
          ("url", .str "https://www.instagram.com/reel/abc/"),
          ("username", .str "chef"),
          ("timestamp", .str ""),
          ("likes", .num 0),
          ("comments", .num 0),
          ("views", .num 0),
          ("hashtags", .arr []),
          ("mentions", .arr []),
          ("location", .null)])]⟩ :=
  ⟨by decide, by decide, by rfl,
    (C1_amended "t" "https://www.instagram.com/reel/abc/" 200
      [("caption", Json.str "Yum"), ("ownerUsername", Json.str "chef")] []
      (by decide) (by decide) (by rfl)).trans (by rfl)⟩

/-- Claim C2 fails as stated in part (2): the request body `5` is not an
object containing a string field `url`, yet extract does not return 400 —
the Python membership test `'url' in 5` raises a `TypeError` outside the
handler's try-block, which surfaces as the framework's generic 500. -/
theorem C2_counterexample :
    (extract ⟨"t"⟩ (.num 5) CallOutcome.timeout).2 = .frameworkError := by
  rfl

/-- Claim C2 (amended): the validation order is as claimed — (1) missing
token gives 500 with no outbound call, for every input; then 400 for a falsy
body, for an object without a `url` key, for a non-string or empty `url`,
and for a `url` without "instagram.com" — except that a TRUTHY NON-OBJECT
body either raises out to the framework (generic 500) or, when the Python
membership test is false, returns the 400 "Missing url" response. -/
theorem C2_amended (cfg : Config) (body : Json) (outcome : CallOutcome) :
    (cfg.token = "" →
      extract cfg body outcome
        = (0, .resp ⟨500, errorBody
            (.str "Server configuration error: APIFY_TOKEN not set")⟩))
    ∧ (cfg.token ≠ "" → truthy body = false →
      extract cfg body outcome
        = (0, .resp ⟨400, errorBody
            (.str "Missing \"url\" parameter in request body")⟩))
    ∧ (∀ fs, cfg.token ≠ "" → body = .obj fs → getField fs "url" = none →
      extract cfg body outcome
        = (0, .resp ⟨400, errorBody
            (.str "Missing \"url\" parameter in request body")⟩))
    ∧ (∀ fs v, cfg.token ≠ "" → body = .obj fs → getField fs "url" = some v →
        (∀ s, v ≠ .str s) →
      extract cfg body outcome
        = (0, .resp ⟨400, errorBody (.str "Invalid URL format")⟩))
    ∧ (∀ fs, cfg.token ≠ "" → body = .obj fs → getField fs "url" = some (.str "") →
      extract cfg body outcome
        = (0, .resp ⟨400, errorBody (.str "Invalid URL format")⟩))
    ∧ (∀ fs u, cfg.token ≠ "" → body = .obj fs → getField fs "url" = some (.str u) →
        u ≠ "" → strContains u "instagram.com" = false →
      extract cfg body outcome
        = (0, .resp ⟨400, errorBody (.str "URL must be from instagram.com")⟩))
    ∧ (cfg.token ≠ "" → truthy body = true → (∀ fs, body ≠ .obj fs) →
      (extract cfg body outcome).2 = .frameworkError
        ∨ extract cfg body outcome
            = (0, .resp ⟨400, errorBody
                (.str "Missing \"url\" parameter in request body")⟩)) := by
  refine ⟨?_, ?_, ?_, ?_, ?_, ?_, ?_⟩
  · intro htok
    simp [extract, validate, htok]
  · intro htok htr
    simp [extract, validate, htok, htr]
  · intro fs htok hbody hg
    subst hbody
    by_cases htr : truthy (Json.obj fs) = false
    · simp [extract, validate, htok, htr]
    · simp [extract, validate, htok, Bool.of_not_eq_false htr, pyContains, hg]
  · intro fs v htok hbody hg hns
    subst hbody
    have htr : truthy (Json.obj fs) = true := by
      cases fs with
      | nil => simp [getField] at hg
      | cons p rest => simp [truthy]
    rcases v with _ | b | n | s | xs | gs
    · simp [extract, validate, htok, htr, pyContains, hg]
    · simp [extract, validate, htok, htr, pyContains, hg]
    · simp [extract, validate, htok, htr, pyContains, hg]
    · exact absurd rfl (hns _)
    · simp [extract, validate, htok, htr, pyContains, hg]
    · simp [extract, validate, htok, htr, pyContains, hg]
  · intro fs htok hbody hg
    subst hbody
    have htr : truthy (Json.obj fs) = true := by
      cases fs with
      | nil => simp [getField] at hg
      | cons p rest => simp [truthy]
    simp [extract, validate, htok, htr, pyContains, hg]
  · intro fs u htok hbody hg hu hin
    subst hbody
    have htr : truthy (Json.obj fs) = true := by
      cases fs with
      | nil => simp [getField] at hg
      | cons p rest => simp [truthy]
    simp [extract, validate, htok, htr, pyContains, hg, hu, hin]
  · intro htok htr hobj
    rcases body with _ | b | n | s | xs | fs
    · simp [truthy] at htr
    · exact Or.inl (by simp [extract, validate, htok, htr, pyContains])
    · exact Or.inl (by simp [extract, validate, htok, htr, pyContains])
    · by_cases hc : strContains s "url" = true
      · exact Or.inl (by simp [extract, validate, htok, htr, pyContains, hc])
      · exact Or.inr (by
          simp [extract, validate, htok, htr, pyContains, Bool.not_eq_true .. ▸ hc])
    · by_cases hc : listHasStr xs "url" = true
      · exact Or.inl (by simp [extract, validate, htok, htr, pyContains, hc])
      · exact Or.inr (by
          simp [extract, validate, htok, htr, pyContains, Bool.not_eq_true .. ▸ hc])
    · exact absurd rfl (hobj fs)

/-- Witness for C2_amended, part (1): unset token gives 500 and zero
outbound calls even for a well-formed body. -/
theorem C2_amended_witness :
    extract ⟨""⟩ (.obj [("url", .str "https://instagram.com/reel/x")])
        CallOutcome.timeout
      = (0, .resp ⟨500, errorBody
          (.str "Server configuration error: APIFY_TOKEN not set")⟩) :=
  (C2_amended ⟨""⟩ (.obj [("url", .str "https://instagram.com/reel/x")])
    CallOutcome.timeout).1 rfl

/-- Claim C3 fails as stated: the body `("error", "X")` is a JSON object
containing an `error` field with provider status 429, yet extract answers
500 with a generic "Unexpected error" message — `.get` on the non-object
error value raises — instead of forwarding 429 with message "X". -/
theorem C3_counterexample :
    (extract ⟨"t"⟩ (.obj [("url", .str "https://instagram.com/reel/x")])
        (.response 429 (.ok (.obj [("error", .str "X")])))).2
      = .resp ⟨500, errorBody
          (.str ("Unexpected error: " ++ attrErrorMsg (.str "X") "get"))⟩ := by
  rfl

/-- Claim C3 (amended): for every provider response whose parsed body is a
JSON object whose `error` field holds an OBJECT, extract forwards the
provider's HTTP status and answers with that object's `message` value,
defaulting to "Unknown error from Apify" when the message key is absent. -/
theorem C3_amended (token u : String) (status : Nat) (fs efs : List (String × Json))
    (htok : token ≠ "") (hu : u ≠ "")
    (hin : strContains u "instagram.com" = true)
    (herr : getField fs "error" = some (.obj efs)) :
    (extract ⟨token⟩ (.obj [("url", .str u)])
        (.response status (.ok (.obj fs)))).2
      = .resp ⟨status, errorBody ((getField efs "message").getD
          (.str "Unknown error from Apify"))⟩ := by
  rw [extract_ok token u _ htok hu hin]
  simp [handleOutcome, herr]

/-- Witness for C3_amended at the spec's example: status 429 and body
`("error", ("message", "X"))` yield a 429 response with error text "X". -/
theorem C3_amended_witness :
    ("t" : String) ≠ ""
    ∧ ("https://instagram.com/reel/x" : String) ≠ ""
    ∧ strContains "https://instagram.com/reel/x" "instagram.com" = true
    ∧ getField [("error", Json.obj [("message", Json.str "X")])] "error"
        = some (.obj [("message", Json.str "X")])
    ∧ (extract ⟨"t"⟩ (.obj [("url", .str "https://instagram.com/reel/x")])
        (.response 429 (.ok (.obj [("error", .obj [("message", .str "X")])])))).2
      = .resp ⟨429, errorBody (.str "X")⟩ :=
  ⟨by decide, by decide, by rfl, by rfl,
    (C3_amended "t" "https://instagram.com/reel/x" 429
      [("error", Json.obj [("message", Json.str "X")])]
      [("message", Json.str "X")]
      (by decide) (by decide) (by rfl) (by rfl)).trans (by rfl)⟩

/-- Claim C4: for every provider response with no `error` field, a non-array
body gives HTTP 500 "Unexpected response format from Apify", and an empty
array gives HTTP 404 with the fixed "No data found" message. -/
theorem C4_thm (token u : String) (status : Nat) (res : Json)
    (htok : token ≠ "") (hu : u ≠ "")
    (hin : strContains u "instagram.com" = true)
    (hne : ∀ fs, res = Json.obj fs → getField fs "error" = none)
    (hna : ∀ xs, res ≠ Json.arr xs) :
    ((extract ⟨token⟩ (.obj [("url", .str u)]) (.response status (.ok res))).2
      = .resp ⟨500, errorBody (.str "Unexpected response format from Apify")⟩)
    ∧ ((extract ⟨token⟩ (.obj [("url", .str u)])
          (.response status (.ok (.arr [])))).2
      = .resp ⟨404, errorBody (.str
          "No data found. The post might be private, deleted, or the URL is invalid.")⟩) := by
  refine ⟨?_, ?_⟩
  · rw [extract_ok token u _ htok hu hin]
    rcases res with _ | b | n | s | xs | fs
    · rfl
    · rfl
    · rfl
    · rfl
    · exact absurd rfl (hna xs)
    · simp [handleOutcome, hne fs rfl]
  · rw [extract_ok token u _ htok hu hin]
    rfl

/-- Witness for C4_thm: a result object without an `error` field gives the
500 "Unexpected response format" answer, and `[]` gives the 404. -/
theorem C4_witness :
    ("t" : String) ≠ ""
    ∧ ("https://instagram.com/reel/x" : String) ≠ ""
    ∧ strContains "https://instagram.com/reel/x" "instagram.com" = true
    ∧ ((extract ⟨"t"⟩ (.obj [("url", .str "https://instagram.com/reel/x")])
          (.response 200 (.ok (.obj [("items", .arr [])])))).2
        = .resp ⟨500, errorBody (.str "Unexpected response format from Apify")⟩)
    ∧ ((extract ⟨"t"⟩ (.obj [("url", .str "https://instagram.com/reel/x")])
          (.response 200 (.ok (.arr [])))).2
        = .resp ⟨404, errorBody (.str
            "No data found. The post might be private, deleted, or the URL is invalid.")⟩) :=
  ⟨by decide, by decide, by rfl,
    C4_thm "t" "https://instagram.com/reel/x" 200 (.obj [("items", .arr [])])
      (by decide) (by decide) (by rfl)
      (by intro fs h; cases h; rfl)
      (fun xs h => nomatch h)⟩

/-- Claim C5: a transport timeout yields 504; any other transport failure
yields 503 with a message containing the underlying error text; a body that
cannot be parsed as JSON yields 500 with a message containing the parse
failure text. -/
theorem C5_thm (token u msg e : String) (status : Nat)
    (htok : token ≠ "") (hu : u ≠ "")
    (hin : strContains u "instagram.com" = true) :
    ((extract ⟨token⟩ (.obj [("url", .str u)]) CallOutcome.timeout).2
        = .resp ⟨504, errorBody (.str "Request timed out. Please try again.")⟩)
    ∧ ((extract ⟨token⟩ (.obj [("url", .str u)]) (.netError msg)).2
        = .resp ⟨503, errorBody (.str ("Network error: " ++ msg))⟩
      ∧ strContains ("Network error: " ++ msg) msg = true)
    ∧ ((extract ⟨token⟩ (.obj [("url", .str u)]) (.response status (.error e))).2
        = .resp ⟨500, errorBody (.str ("Invalid response from Apify: " ++ e))⟩
      ∧ strContains ("Invalid response from Apify: " ++ e) e = true) := by
  refine ⟨?_, ⟨?_, strContains_append_right _ _⟩, ⟨?_, strContains_append_right _ _⟩⟩
  · rw [extract_ok token u _ htok hu hin]
    rfl
  · rw [extract_ok token u _ htok hu hin]
    rfl
  · rw [extract_ok token u _ htok hu hin]
    rfl

/-- Witness for C5_thm: a timeout on a well-formed request yields the 504
response. -/
theorem C5_witness :
    ("t" : String) ≠ ""
    ∧ ("https://instagram.com/reel/x" : String) ≠ ""
    ∧ strContains "https://instagram.com/reel/x" "instagram.com" = true
    ∧ (extract ⟨"t"⟩ (.obj [("url", .str "https://instagram.com/reel/x")])
          CallOutcome.timeout).2
      = .resp ⟨504, errorBody (.str "Request timed out. Please try again.")⟩ :=
  ⟨by decide, by decide, by rfl,
    (C5_thm "t" "https://instagram.com/reel/x" "refused" "bad json" 200
      (by decide) (by decide) (by rfl)).1⟩

/-- Claim C6 fails as stated: a provider response with non-200 status (500)
and a result (non-`error`) array body is answered with 200 success — the
handler parses the body regardless of the status code and never applies the
stricter variant's status-code-first check. -/
theorem C6_counterexample :
    (extract ⟨"t"⟩ (.obj [("url", .str "https://instagram.com/reel/x")])
        (.response 500 (.ok (.arr [.obj []])))).2
      = .resp ⟨200, successBody (normalize [] "https://instagram.com/reel/x")⟩ := by
  rfl

/-- Claim C6 (amended): for every provider response with a non-200 HTTP
status whose body is a result (non-`error`) array with an object first
element, extract IGNORES the provider status and returns 200 success; the
provider status is forwarded only on the error-object path. -/
theorem C6_amended (token u : String) (status : Nat) (post : List (String × Json))
    (rest : List Json) (htok : token ≠ "") (hu : u ≠ "")
    (hin : strContains u "instagram.com" = true) (_hstatus : status ≠ 200) :
    (extract ⟨token⟩ (.obj [("url", .str u)])
        (.response status (.ok (.arr (.obj post :: rest))))).2
      = .resp ⟨200, successBody (normalize post u)⟩ := by
  rw [extract_ok token u _ htok hu hin]
  rfl

/-- Witness for C6_amended: provider status 503 with a one-element result
array still yields 200 success. -/
theorem C6_amended_witness :
    ("t" : String) ≠ ""
    ∧ ("https://instagram.com/reel/x" : String) ≠ ""
    ∧ strContains "https://instagram.com/reel/x" "instagram.com" = true
    ∧ (503 : Nat) ≠ 200
    ∧ (extract ⟨"t"⟩ (.obj [("url", .str "https://instagram.com/reel/x")])
        (.response 503 (.ok (.arr [.obj [("caption", .str "c")]])))).2
      = .resp ⟨200, successBody
          (normalize [("caption", Json.str "c")] "https://instagram.com/reel/x")⟩ :=
  ⟨by decide, by decide, by rfl, by decide,
    C6_amended "t" "https://instagram.com/reel/x" 503 [("caption", Json.str "c")] []
      (by decide) (by decide) (by rfl) (by decide)⟩

/-- Claim C7 fails as stated: two runs given the identical provider response
(one object with no fields) but different request URLs produce different
results — the `url` field of the normalized data defaults to the REQUEST
URL, so the NormalizedResult is not a function of the provider response
alone. -/
theorem C7_counterexample :
    (extract ⟨"t"⟩ (.obj [("url", .str "https://instagram.com/a")])
        (.response 200 (.ok (.arr [.obj []])))).2
    ≠ (extract ⟨"t"⟩ (.obj [("url", .str "https://instagram.com/b")])
        (.response 200 (.ok (.arr [.obj []])))).2 :=
  fun h => absurd (congrArg dataUrlStr h) (by decide)

/-- Claim C7 (amended): normalization is a deterministic pure function of
the ProviderResult AND the request URL; whenever the provider result carries
a `url` field, the output does not depend on the request URL at all. -/
theorem C7_amended (post : List (String × Json)) (uA uB : String) (v : Json)
    (hurl : getField post "url" = some v) :
    normalize post uA = normalize post uB := by
  simp [normalize, hurl]

/-- Witness for C7_amended: a provider result with a `url` field normalizes
identically under two different request URLs. -/
theorem C7_amended_witness :
    getField [("url", Json.str "u")] "url" = some (Json.str "u")
    ∧ normalize [("url", Json.str "u")] "a" = normalize [("url", Json.str "u")] "b" :=
  ⟨by rfl, C7_amended [("url", Json.str "u")] "a" "b" (Json.str "u") (by rfl)⟩

/-- Claim C8 fails as stated: the provider body with `error.message` equal
to the number 5 is forwarded verbatim, so the failing call surfaces with an
`error` field that is not a human-readable string. -/
theorem C8_counterexample :
    (extract ⟨"t"⟩ (.obj [("url", .str "https://instagram.com/reel/x")])
        (.response 429 (.ok (.obj [("error", .obj [("message", .num 5)])])))).2
      = .resp ⟨429, .obj [("success", .bool false), ("error", .num 5)]⟩ := by
  rfl

/-- Claim C8 (amended): the outbound provider call is issued at most once
per request (never retried); every failure the handler itself produces
surfaces as a body of shape success false plus an `error` value, with a
status among 400/404/500/503/504 or the provider's own status forwarded,
and the `error` value is a string on every path except the forwarded
provider-message path, which embeds the provider's `message` value
verbatim; only an escaped exception (truthy non-object request body)
bypasses this shape via the framework's generic 500. -/
theorem C8_amended (cfg : Config) (body : Json) (outcome : CallOutcome) :
    (extract cfg body outcome).1 ≤ 1
    ∧ ((extract cfg body outcome).2 = HandlerResult.frameworkError →
        truthy body = true ∧ ∀ fs, body ≠ Json.obj fs)
    ∧ (∀ r msg, (extract cfg body outcome).2 = HandlerResult.resp r →
        r.body = errorBody msg →
        (r.status ∈ ([400, 404, 500, 503, 504] : List Nat)
          ∨ ∃ parsed, outcome = CallOutcome.response r.status parsed)
        ∧ ((∃ s, msg = Json.str s)
          ∨ ∃ status fs efs,
              outcome = CallOutcome.response status (.ok (.obj fs))
              ∧ getField fs "error" = some (Json.obj efs)
              ∧ msg = (getField efs "message").getD
                  (Json.str "Unknown error from Apify"))) := by
  refine ⟨?_, ?_, ?_⟩
  · cases hv : validate cfg body with
    | error r => simp [extract, hv]
    | ok u => simp [extract, hv]
  · intro hf
    rcases validate_cases cfg body with ⟨u, hv⟩ | ⟨hv, htr, hobj⟩ | ⟨st, s, hv, hst⟩
    · rw [extract_of_ok cfg body outcome u hv] at hf
      exact absurd hf (by simp)
    · exact ⟨htr, hobj⟩
    · rw [extract_of_error cfg body outcome _ hv] at hf
      exact absurd hf (by simp)
  · intro r msg hr hb
    rcases validate_cases cfg body with ⟨u, hv⟩ | ⟨hv, htr, hobj⟩ | ⟨st, s, hv, hst⟩
    · rw [extract_of_ok cfg body outcome u hv] at hr
      have hr2 : handleOutcome u outcome = r := by
        simpa using hr
      subst hr2
      rcases handleOutcome_cases u outcome with
        ⟨post, rest, st2, ho, heq⟩ | ⟨m2, hbody, hstat, hmsg⟩
      · rw [heq] at hb
        simp [successBody, errorBody] at hb
      · have hm : msg = m2 := by
          have h2 : errorBody m2 = errorBody msg := hbody.symm.trans hb
          simpa [errorBody] using h2.symm
        subst hm
        exact ⟨hstat, hmsg⟩
    · rw [extract_of_error cfg body outcome _ hv] at hr
      exact absurd hr (by simp)
    · rw [extract_of_error cfg body outcome _ hv] at hr
      have hr2 : HttpResponse.mk st (errorBody (.str s)) = r := by
        simpa using hr
      subst hr2
      have hm : msg = Json.str s := by
        simpa [errorBody] using hb.symm
      constructor
      · left
        rcases hst with h | h <;> simp [h]
      · exact Or.inl ⟨s, hm⟩

/-- Witness for C8_amended on the timeout failure: at most one call, status
504 in the allowed set, and a string error message. -/
theorem C8_amended_witness :
    (extract ⟨"t"⟩ (.obj [("url", .str "https://instagram.com/reel/x")])
        CallOutcome.timeout).1 ≤ 1
    ∧ (((504 : Nat) ∈ ([400, 404, 500, 503, 504] : List Nat)
          ∨ ∃ parsed, CallOutcome.timeout = CallOutcome.response 504 parsed)
        ∧ ((∃ s, Json.str "Request timed out. Please try again." = Json.str s)
          ∨ ∃ status fs efs,
              CallOutcome.timeout = CallOutcome.response status (.ok (.obj fs))
              ∧ getField fs "error" = some (Json.obj efs)
              ∧ Json.str "Request timed out. Please try again."
                  = (getField efs "message").getD
                      (Json.str "Unknown error from Apify"))) :=
  ⟨(C8_amended ⟨"t"⟩ (.obj [("url", .str "https://instagram.com/reel/x")])
      CallOutcome.timeout).1,
    (C8_amended ⟨"t"⟩ (.obj [("url", .str "https://instagram.com/reel/x")])
      CallOutcome.timeout).2.2
      ⟨504, errorBody (.str "Request timed out. Please try again.")⟩
      (.str "Request timed out. Please try again.") (by rfl) (by rfl)⟩

/-- Claim C9: every GET /health call returns HTTP 200, performs no outbound
provider call, and its `token_configured` field is true exactly when the
provider token is configured (non-empty). -/
theorem C9_thm (cfg : Config) :
    (health cfg).1 = 0
    ∧ (health cfg).2.status = 200
    ∧ (health cfg).2.body = .obj [
        ("status", .str "ok"),
        ("message", .str "Instagram Recipe Extractor is running"),
        ("token_configured", .bool (if cfg.token = "" then false else true))]
    ∧ ((if cfg.token = "" then false else true) = true ↔ cfg.token ≠ "") := by
  refine ⟨rfl, rfl, rfl, ?_⟩
  by_cases h : cfg.token = "" <;> simp [h]

/-- Claim C10: a non-empty array whose first element is not a JSON object
makes extract answer the generic 500 with a message beginning
"Unexpected error:" (never 200), and an `error` field whose value is not an
object takes the same generic 500 path rather than the forwarded-status
provider-error path. -/
theorem C10_thm (token u : String) (status : Nat)
    (htok : token ≠ "") (hu : u ≠ "")
    (hin : strContains u "instagram.com" = true) :
    (∀ first rest, (∀ post, first ≠ Json.obj post) →
      (extract ⟨token⟩ (.obj [("url", .str u)])
          (.response status (.ok (.arr (first :: rest))))).2
        = .resp ⟨500, errorBody
            (.str ("Unexpected error: " ++ attrErrorMsg first "get"))⟩)
    ∧ (∀ fs ev, getField fs "error" = some ev → (∀ efs, ev ≠ Json.obj efs) →
      (extract ⟨token⟩ (.obj [("url", .str u)])
          (.response status (.ok (.obj fs)))).2
        = .resp ⟨500, errorBody
            (.str ("Unexpected error: " ++ attrErrorMsg ev "get"))⟩) := by
  constructor
  · intro first rest hno
    rw [extract_ok token u _ htok hu hin]
    rcases first with _ | b | n | s | xs | post
    · rfl
    · rfl
    · rfl
    · rfl
    · rfl
    · exact absurd rfl (hno post)
  · intro fs ev hg hno
    rw [extract_ok token u _ htok hu hin]
    rcases ev with _ | b | n | s | xs | efs
    · simp [handleOutcome, hg]
    · simp [handleOutcome, hg]
    · simp [handleOutcome, hg]
    · simp [handleOutcome, hg]
    · simp [handleOutcome, hg]
    · exact absurd rfl (hno efs)

/-- Witness for C10_thm at the body `["foo"]`. -/
theorem C10_witness :
    ("t" : String) ≠ ""
    ∧ ("https://instagram.com/reel/x" : String) ≠ ""
    ∧ strContains "https://instagram.com/reel/x" "instagram.com" = true
    ∧ (extract ⟨"t"⟩ (.obj [("url", .str "https://instagram.com/reel/x")])
        (.response 200 (.ok (.arr [.str "foo"])))).2
      = .resp ⟨500, errorBody
          (.str ("Unexpected error: " ++ attrErrorMsg (.str "foo") "get"))⟩ :=
  ⟨by decide, by decide, by rfl,
    (C10_thm "t" "https://instagram.com/reel/x" 200
      (by decide) (by decide) (by rfl)).1 (.str "foo") []
      (fun post h => nomatch h)⟩

end RecipeExtractor
